import Mathlib

set_option maxRecDepth 4000
set_option maxHeartbeats 2000000

/-!
Verification of the conversation state machine and parameter-extraction
pipeline of the real-estate poster template agent
(src/agents/nodes.py, src/agents/state.py, src/agents/tools.py,
src/agents/__init__.py, src/app.py, src/utils/template_renderer.py).

The Python regular expressions used by the extraction functions are given
semantics by a small backtracking matching engine below.  It reproduces,
for the pattern features actually used in the source (literals, single
character classes, greedy star or plus over a character class, greedy
optional groups, ordered alternation of literals, capturing groups over
those), Python re semantics: leftmost starting position, greedy
quantifiers with backtracking, alternatives tried in source order.
Character classes follow the ASCII reading of the Python classes.
-/

/-- Characters written by code so the file avoids quote literals. -/
def dquoteCh : Char := Char.ofNat 34

def squoteCh : Char := Char.ofNat 39

/-- Python whitespace class backslash-s, ASCII range. -/
def pySpace (c : Char) : Bool :=
  c = ' ' || c = '\t' || c = '\n' || c = '\r' || c = '\x0b' || c = '\x0c'

/-- Python word class backslash-w, ASCII range. -/
def pyWord (c : Char) : Bool := c.isAlphanum || c = '_'

def pyDigit (c : Char) : Bool := c.isDigit

def nonSpace (c : Char) : Bool := !(pySpace c)

def nonDigit (c : Char) : Bool := !(c.isDigit)

/-- The class of digits, commas and periods used by the price patterns. -/
def priceCh (c : Char) : Bool := c.isDigit || c = ',' || c = '.'

/-- The color-spec class: hash, word characters, parentheses, comma, period, space. -/
def colorCh (c : Char) : Bool :=
  c = '#' || pyWord c || c = '(' || c = ')' || c = ',' || c = '.' || c = ' '

/-- The element-name class: word characters, whitespace, hyphen. -/
def elemCh (c : Char) : Bool := pyWord c || pySpace c || c = '-'

def notDquote (c : Char) : Bool := !(c = dquoteCh)

def quoteCh (c : Char) : Bool := c = dquoteCh || c = squoteCh

def notQuote (c : Char) : Bool := !(quoteCh c)

/-- Case-insensitive-aware character comparison (ASCII lowering, as in the
IGNORECASE patterns of the source, which only use ASCII literals). -/
def chEq (ci : Bool) (a b : Char) : Bool :=
  if ci then a.toLower == b.toLower else a == b

/-- Consume a literal from the head of the input, or fail. -/
def consumeLit (ci : Bool) : List Char → List Char → Option (List Char)
  | [], cs => some cs
  | _ :: _, [] => none
  | l :: ls, c :: cs => if chEq ci l c then consumeLit ci ls cs else none

def firstSome : List α → (α → Option β) → Option β
  | [], _ => none
  | x :: rest, f =>
    match f x with
    | some b => some b
    | none => firstSome rest f

/-- All splits of a greedy class run, longest taken part first (the
backtracking order of a greedy star). -/
def splitsAll (p : Char → Bool) (cs : List Char) : List (List Char × List Char) :=
  let run := cs.takeWhile p
  let rest := cs.drop run.length
  ((List.range (run.length + 1)).reverse).map (fun k => (run.take k, run.drop k ++ rest))

/-- Splits with a nonempty taken part (backtracking order of a greedy plus). -/
def splitsPos (p : Char → Bool) (cs : List Char) : List (List Char × List Char) :=
  (splitsAll p cs).filter (fun pr => !pr.1.isEmpty)

/-- Syntax of the regular-expression fragment used by the source. -/
inductive RE where
  | eps : RE
  | lit : String → Bool → RE
  | cls : (Char → Bool) → RE
  | star : (Char → Bool) → RE
  | plus : (Char → Bool) → RE
  | alt : RE → RE → RE
  | seq : RE → RE → RE
  | opt : RE → RE
  | grp : RE → RE

/-- Backtracking matcher in continuation style.  The continuation receives
the rest of the input and the captures accumulated so far; the first
success in backtracking order is returned, as in Python re. -/
def matchRE (r : RE) (cs : List Char) (caps : List String)
    (k : List Char → List String → Option (List Char × List String)) :
    Option (List Char × List String) :=
  match r with
  | .eps => k cs caps
  | .lit s ci =>
    match consumeLit ci s.data cs with
    | some rest => k rest caps
    | none => none
  | .cls p =>
    match cs with
    | [] => none
    | c :: rest => if p c then k rest caps else none
  | .star p => firstSome (splitsAll p cs) (fun pr => k pr.2 caps)
  | .plus p => firstSome (splitsPos p cs) (fun pr => k pr.2 caps)
  | .alt a b =>
    match matchRE a cs caps k with
    | some res => some res
    | none => matchRE b cs caps k
  | .seq a b => matchRE a cs caps (fun rest caps2 => matchRE b rest caps2 k)
  | .opt a =>
    match matchRE a cs caps k with
    | some res => some res
    | none => k cs caps
  | .grp a =>
    matchRE a cs caps
      (fun rest caps2 => k rest (caps2 ++ [String.mk (cs.take (cs.length - rest.length))]))

/-- Attempt a match anchored at the start of `cs`; on success return
the matched text (group 0), the captures, and the rest of the input. -/
def matchAtPos (r : RE) (cs : List Char) : Option (String × List String × List Char) :=
  match matchRE r cs [] (fun rest caps => some (rest, caps)) with
  | some (rest, caps) => some (String.mk (cs.take (cs.length - rest.length)), caps, rest)
  | none => none

/-- Leftmost search, as re.search: try each start position left to right. -/
def searchAux (r : RE) : List Char → Option (String × List String × List Char)
  | [] => matchAtPos r []
  | c :: cs =>
    match matchAtPos r (c :: cs) with
    | some res => some res
    | none => searchAux r cs

/-- re.search: group 0 and the list of captures of the first match. -/
def reSearch (r : RE) (s : String) : Option (String × List String) :=
  match searchAux r s.data with
  | some (g0, caps, _) => some (g0, caps)
  | none => none

/-- re.findall: captures of the non-overlapping matches, left to right,
continuing after the end of each match.  (All patterns used with findall
in the source consume at least one character per match.) -/
def findAllAux (r : RE) : Nat → List Char → List (List String)
  | 0, _ => []
  | fuel + 1, cs =>
    match searchAux r cs with
    | none => []
    | some (_, caps, rest) =>
      caps :: (if rest.length < cs.length then findAllAux r fuel rest else [])

def reFindAll (r : RE) (s : String) : List (List String) :=
  findAllAux r (s.data.length + 1) s.data

/-- Fold a list of regex fragments into their sequence. -/
def rseq (xs : List RE) : RE := xs.foldr RE.seq RE.eps

/-- Ordered alternation of case-insensitive literals. -/
def raltsCI (ws : List String) : RE :=
  match ws with
  | [] => RE.cls (fun _ => false)
  | [w] => RE.lit w true
  | w :: rest => RE.alt (RE.lit w true) (raltsCI rest)

/-- String helpers matching the Python methods used by the source. -/
def listStartsWith : List Char → List Char → Bool
  | _, [] => true
  | [], _ :: _ => false
  | h :: hs, n :: ns => h == n && listStartsWith hs ns

/-- Python substring containment (the `in` operator on str). -/
def containsSub : List Char → List Char → Bool
  | [], needle => needle.isEmpty
  | h :: rest, needle => listStartsWith (h :: rest) needle || containsSub rest needle

def strContains (hay needle : String) : Bool := containsSub hay.data needle.data

/-- Python str.lower (ASCII scope). -/
def pyLower (s : String) : String := String.mk (s.data.map Char.toLower)

/-- Python str.strip (whitespace both ends). -/
def pyStrip (s : String) : String :=
  String.mk (((s.data.dropWhile pySpace).reverse.dropWhile pySpace).reverse)

/-! ## The concrete patterns of src/agents/nodes.py -/

def spacesP : RE := RE.plus pySpace

def spacesS : RE := RE.star pySpace

/-- Pattern of nodes.py line 18, IGNORECASE:
(?:use|select|choose|prefer|want|generate|create|try) backslash-s+
(?:the backslash-s+)? template backslash-s+ (backslash-d). -/
def reTemplateSelect : RE :=
  rseq [raltsCI ["use", "select", "choose", "prefer", "want", "generate", "create", "try"],
    spacesP, RE.opt (rseq [RE.lit "the" true, spacesP]), RE.lit "template" true,
    spacesP, RE.grp (RE.cls pyDigit)]

/-- Pattern of nodes.py line 25, IGNORECASE:
template backslash-s* (?:number|#)? backslash-s* (backslash-d). -/
def reTemplateNum : RE :=
  rseq [RE.lit "template" true, spacesS,
    RE.opt (RE.alt (RE.lit "number" true) (RE.lit "#" true)), spacesS,
    RE.grp (RE.cls pyDigit)]

def extAlt : RE := raltsCI ["jpg", "jpeg", "png", "gif", "webp"]

/-- Pattern of nodes.py line 51, IGNORECASE: absolute http(s) URL ending in
an image extension. -/
def reImgHttp : RE :=
  rseq [RE.lit "http" true, RE.opt (RE.lit "s" true), RE.lit "://" true,
    RE.plus nonSpace, RE.lit "." true, RE.grp extAlt]

/-- Pattern of nodes.py line 55, IGNORECASE: www-prefixed URL with image extension. -/
def reImgWww : RE :=
  rseq [RE.lit "www." true, RE.plus nonSpace, RE.lit "." true, RE.grp extAlt]

/-- Pattern of nodes.py line 63, IGNORECASE: any www-prefixed URL. -/
def reWwwAny : RE :=
  rseq [RE.lit "www." true, RE.plus nonSpace, RE.lit "." true, RE.plus pyWord]

/-- Pattern of nodes.py line 71, IGNORECASE: explicit price modification,
with (?:to|as|be) required. -/
def rePriceMod : RE :=
  rseq [raltsCI ["modify", "change", "update", "set", "make"],
    RE.opt (rseq [spacesP, RE.lit "the" true]), spacesP, RE.lit "price" true,
    spacesP, raltsCI ["to", "as", "be"], spacesP, RE.opt (RE.lit "$" true),
    RE.grp (RE.plus priceCh)]

/-- Pattern of nodes.py line 272, IGNORECASE: the user-turn variant of the
price-modification pattern, with (?:to|as|be) optional. -/
def rePriceModUT : RE :=
  rseq [raltsCI ["modify", "change", "update", "set", "make"],
    RE.opt (rseq [spacesP, RE.lit "the" true]), spacesP, RE.lit "price" true,
    spacesP, RE.opt (raltsCI ["to", "as", "be"]), spacesP, RE.opt (RE.lit "$" true),
    RE.grp (RE.plus priceCh)]

/-- Pattern of nodes.py line 85: a dollar sign followed by digits, commas, periods. -/
def reDollarAmount : RE := rseq [RE.lit "$" false, RE.grp (RE.plus priceCh)]

/-- Pattern of nodes.py line 88, IGNORECASE:
(?:price|cost|value) non-digits* (digit digits-commas-periods+). -/
def rePriceWord : RE :=
  rseq [raltsCI ["price", "cost", "value"], RE.star nonDigit,
    RE.grp (RE.seq (RE.cls pyDigit) (RE.plus priceCh))]

def dquoteStr : String := String.mk [dquoteCh]

/-- Pattern of nodes.py line 102 (case-sensitive): element-name, literal
text-should-be marker, then quoted content. -/
def reTextShould : RE :=
  rseq [RE.grp (RE.plus elemCh), RE.lit (" text should be " ++ dquoteStr) false,
    RE.grp (RE.plus notDquote), RE.lit dquoteStr false]

/-- Pattern of nodes.py line 119 (case-sensitive): element-name, literal
color-should-be marker, then a color spec. -/
def reColorShould : RE :=
  rseq [RE.grp (RE.plus elemCh), RE.lit " color should be " false,
    RE.grp (RE.plus colorCh)]

/-- The fixed-phrase text patterns of templates 2 and 3
(label backslash-s+ text backslash-s+ quoted content, IGNORECASE). -/
def reTextAfter (label : String) : RE :=
  rseq [RE.lit label true, spacesP, RE.lit "text" true, spacesP,
    RE.cls quoteCh, RE.grp (RE.plus notQuote), RE.cls quoteCh]

/-- The fixed-phrase color patterns of templates 2 and 3
(label backslash-s+ color backslash-s+ color-spec, IGNORECASE). -/
def reColorAfter (label : String) : RE :=
  rseq [RE.lit label true, spacesP, RE.lit "color" true, spacesP,
    RE.grp (RE.plus colorCh)]

/-- Pattern of nodes.py line 198, IGNORECASE:
secondary image backslash-s+ (digit) backslash-s+ (http(s) URL). -/
def reSecondaryImage : RE :=
  rseq [RE.lit "secondary image" true, spacesP, RE.grp (RE.cls pyDigit), spacesP,
    RE.grp (rseq [RE.lit "http" true, RE.opt (RE.lit "s" true), RE.lit "://" true,
      RE.plus nonSpace, RE.lit "." true, RE.plus pyWord])]

/-! ## Data model (src/agents/state.py) -/

/-- Parameter dictionaries, as insertion-ordered association lists with
unique keys (Python dict semantics for the operations used). -/
abbrev Params := List (String × String)

def pget (k : String) : Params → Option String
  | [] => none
  | kv :: rest => if kv.1 = k then some kv.2 else pget k rest

def pmem (k : String) (ps : Params) : Bool := (pget k ps).isSome

/-- Dict assignment: replace in place if the key exists, else append. -/
def pset (k v : String) : Params → Params
  | [] => [(k, v)]
  | kv :: rest => if kv.1 = k then (k, v) :: rest else kv :: pset k v rest

/-- Python dict.update: apply the updates in order. -/
def pupdate (base upd : Params) : Params :=
  upd.foldl (fun b kv => pset kv.1 kv.2 b) base

inductive Msg where
  | human : String → Msg
  | ai : String → Msg
  | system : String → Msg
deriving DecidableEq, Repr

/-- The result record returned by the rendering service (the fields beyond
the url are not consulted by the agent logic modelled here). -/
structure GenResult where
  url : String
deriving DecidableEq, Repr

/-- AgentState of src/agents/state.py. -/
structure AgentState where
  messages : List Msg
  status : String
  template_params : Option Params
  generation_result : Option GenResult
  template_version : Int
  force_generation : Bool
deriving DecidableEq, Repr

/-- get_initial_state of src/agents/state.py. -/
def get_initial_state : AgentState :=
  { messages := [Msg.system ("You are a helpful real estate poster design assistant. " ++
      "You help users create customized real estate poster templates. " ++
      "You can create posters using three different templates. " ++
      "You will ask for details about their real estate listing and " ++
      "help them customize the poster design.")],
    status := "WAITING_FOR_USER",
    template_params := none,
    generation_result := none,
    template_version := 1,
    force_generation := false }

/-! ## extract_template_preference (nodes.py lines 13-40) -/

def digitCapToInt (s : String) : Int :=
  match s.data with
  | [c] => (c.toNat : Int) - 48
  | _ => 0

/-- Third step: the thematic keyword sets (nodes.py lines 32-37), each an
IGNORECASE alternation of literal phrases, i.e. substring tests. -/
def prefKeywordStep (text : String) : Int :=
  let lower := pyLower text
  if ["modern home", "for sale", "start from", "buy now"].any
      (fun w => strContains lower w) then 1
  else if ["house agent", "information", "contact", "technology", "template 2"].any
      (fun w => strContains lower w) then 2
  else if ["best home", "multiple photos", "i want button", "three images", "template 3"].any
      (fun w => strContains lower w) then 3
  else 1

/-- Second step: bare template-number mention (nodes.py lines 25-29); a
match with a digit outside 1..3 falls through. -/
def prefNumberStep (text : String) : Int :=
  match reSearch reTemplateNum text with
  | some (_, d :: _) =>
    let n := digitCapToInt d
    if 1 ≤ n ∧ n ≤ 3 then n else prefKeywordStep text
  | _ => prefKeywordStep text

/-- extract_template_preference of nodes.py. -/
def extract_template_preference (text : String) : Int :=
  match reSearch reTemplateSelect text with
  | some (_, d :: _) =>
    let n := digitCapToInt d
    if 1 ≤ n ∧ n ≤ 3 then n else prefNumberStep text
  | _ => prefNumberStep text

/-! ## extract_template_params (nodes.py lines 43-239) -/

def stripCommas (s : String) : String := String.mk (s.data.filter (fun c => !(c = ',')))

def natOfDigits (cs : List Char) : Nat :=
  cs.foldl (fun acc c => acc * 10 + (c.toNat - 48)) 0

def splitOnDot : List Char → List (List Char)
  | [] => [[]]
  | c :: rest =>
    if c = '.' then [] :: splitOnDot rest
    else
      match splitOnDot rest with
      | [] => [[c]]
      | p :: ps => (c :: p) :: ps

/-- int(float(s)) for a string of digits and periods (commas already
stripped): defined exactly when s has at least one digit-or-empty part and
at most one period and is not empty; truncates the fractional part.
(The source goes through a double; exact for the magnitudes the agent
handles, the double-rounding corner for huge inputs is not modelled.) -/
def pyIntOfFloatStr (s : String) : Option Nat :=
  let cs := s.data
  if cs.any (fun c => !(c.isDigit || c = '.')) then none
  else
    match splitOnDot cs with
    | [intPart] => if intPart.isEmpty then none else some (natOfDigits intPart)
    | [intPart, fracPart] =>
      if intPart.isEmpty && fracPart.isEmpty then none
      else some (natOfDigits intPart)
    | _ => none

def digitsGrouped : List Char → List Char
  | a :: b :: c :: d :: rest => a :: b :: c :: ',' :: digitsGrouped (d :: rest)
  | cs => cs

/-- Format a natural number with thousands separators, as the Python
format string with a comma option does. -/
def commaGrouped (n : Nat) : String :=
  String.mk ((digitsGrouped (toString n).data.reverse).reverse)

/-- The shared price-formatting step (nodes.py lines 74-82 and 92-99):
strip commas, parse, reformat with a dollar sign and separators; on a
parse failure fall back to the raw matched text behind a dollar sign. -/
def formatPriceGroup (g : String) : String :=
  match pyIntOfFloatStr (stripCommas g) with
  | some n => "$" ++ commaGrouped n
  | none => "$" ++ g

/-- Image-URL section (nodes.py lines 49-65): three rules in order,
the third attempted only when the first two left no image_url. -/
def extractImageUrl (text : String) (params : Params) : Params :=
  let params :=
    match reSearch reImgHttp text with
    | some (g0, _) => pset "image_url" g0 params
    | none =>
      match reSearch reImgWww text with
      | some (g0, _) => pset "image_url" ("https://" ++ g0) params
      | none => params
  if pmem "image_url" params then params
  else
    match reSearch reWwwAny text with
    | some (g0, _) => pset "image_url" ("https://" ++ g0) params
    | none => params

/-- Price section for template 1 (nodes.py lines 70-99): the modification
pattern first; otherwise the dollar pattern, then the price-word pattern. -/
def extractPriceT1 (text : String) (params : Params) : Params :=
  match reSearch rePriceMod text with
  | some (_, g :: _) => pset "property_price" (formatPriceGroup g) params
  | _ =>
    match reSearch reDollarAmount text with
    | some (_, g :: _) => pset "property_price" (formatPriceGroup g) params
    | _ =>
      match reSearch rePriceWord text with
      | some (_, g :: _) => pset "property_price" (formatPriceGroup g) params
      | _ => params

/-- Element-name to text-parameter mapping (nodes.py lines 104-116). -/
def textKeyT1 (ek : String) : Option String :=
  if ek = "modern" then some "modern_text"
  else if ek = "home" then some "home_text"
  else if ek = "for sale" then some "for_sale_text"
  else if ek = "start from" then some "start_from_text"
  else if ek = "cta" || ek = "buy now" then some "cta_text"
  else if ek = "website" then some "website_text"
  else none

/-- Element-name to color-parameter mapping (nodes.py lines 121-135). -/
def colorKeyT1 (ek : String) : Option String :=
  if ek = "modern" then some "modern_color"
  else if ek = "home" then some "home_color"
  else if ek = "for sale" then some "for_sale_color"
  else if ek = "start from" then some "start_from_color"
  else if ek = "price" then some "price_color"
  else if ek = "cta" || ek = "buy now" then some "cta_color"
  else if ek = "website" then some "website_color"
  else none

/-- Text-customization loop for template 1 (nodes.py lines 102-116). -/
def applyTextMatches (text : String) (params : Params) : Params :=
  (reFindAll reTextShould text).foldl
    (fun ps caps =>
      match caps with
      | [element, content] =>
        match textKeyT1 (pyLower (pyStrip element)) with
        | some k => pset k content ps
        | none => ps
      | _ => ps)
    params

/-- Explicit color-preference loop for template 1 (nodes.py lines 119-135). -/
def applyColorMatches (text : String) (params : Params) : Params :=
  (reFindAll reColorShould text).foldl
    (fun ps caps =>
      match caps with
      | [element, color] =>
        match colorKeyT1 (pyLower (pyStrip element)) with
        | some k => pset k (pyStrip color) ps
        | none => ps
      | _ => ps)
    params

/-- The color-adjective table of nodes.py lines 138-151, in insertion order. -/
def colorAdjectives : List (String × String) :=
  [("yellow", "#FFD700"), ("red", "#FF0000"), ("blue", "#0000FF"),
   ("green", "#00FF00"), ("black", "#000000"), ("white", "#FFFFFF"),
   ("purple", "#800080"), ("orange", "#FFA500"), ("pink", "#FFC0CB"),
   ("brown", "#A52A2A"), ("gray", "#808080"), ("gold", "#FFD700")]

/-- Whether an adjective triggers the cta-color shortcut for a text
(nodes.py line 154). -/
def adjTriggersCta (lower adj : String) : Bool :=
  strContains lower (adj ++ " buy now") || strContains lower (adj ++ " button")

/-- Conditional dict assignment, the shape of each line of the
color-adjective loop body. -/
def condSet (b : Bool) (k v : String) (ps : Params) : Params :=
  if b then pset k v ps else ps

/-- Body of the color-adjective loop (nodes.py lines 153-165): one
adjective entry checks the six element keywords in the order of the
source, overwriting the corresponding color keys. -/
def adjApply (lower : String) (ps : Params) (ec : String × String) : Params :=
  condSet (strContains lower (ec.1 ++ " website")) "website_color" ec.2
    (condSet (strContains lower (ec.1 ++ " price")) "price_color" ec.2
      (condSet (strContains lower (ec.1 ++ " for sale")) "for_sale_color" ec.2
        (condSet (strContains lower (ec.1 ++ " home")) "home_color" ec.2
          (condSet (strContains lower (ec.1 ++ " modern")) "modern_color" ec.2
            (condSet (adjTriggersCta lower ec.1) "cta_color" ec.2 ps)))))

/-- Simplified color-description loop (nodes.py lines 153-165), run after
the explicit color rule. -/
def applyColorAdjectives (text : String) (params : Params) : Params :=
  colorAdjectives.foldl (adjApply (pyLower text)) params

/-- Apply in order the straight-line text rules of templates 2 and 3:
for each (pattern, key), if the pattern matches, store group 1. -/
def applyTextRules (rules : List (RE × String)) (text : String) (params : Params) : Params :=
  rules.foldl
    (fun ps rk =>
      match reSearch rk.1 text with
      | some (_, g :: _) => pset rk.2 g ps
      | _ => ps)
    params

/-- Same for the color rules, which store group 1 stripped. -/
def applyColorRules (rules : List (RE × String)) (text : String) (params : Params) : Params :=
  rules.foldl
    (fun ps rk =>
      match reSearch rk.1 text with
      | some (_, g :: _) => pset rk.2 (pyStrip g) ps
      | _ => ps)
    params

/-- Template 2 text rules (nodes.py lines 170-180), in source order. -/
def t2TextRules : List (RE × String) :=
  [(reTextAfter "house agent", "house_agent_text"),
   (reTextAfter "tagline", "tagline_text"),
   (reTextAfter "info header", "info_header_text"),
   (reTextAfter "contact info", "contact_info_text")]

/-- Template 2 color rules (nodes.py lines 183-193), in source order. -/
def t2ColorRules : List (RE × String) :=
  [(reColorAfter "main text", "text_1_color"),
   (reColorAfter "tagline", "text_1_copy_color"),
   (reColorAfter "info header", "text_1_copy_copy_color"),
   (reColorAfter "contact info", "text_1_copy_copy_copy_color")]

/-- Template 3 text rules (nodes.py lines 208-221), in source order. -/
def t3TextRules : List (RE × String) :=
  [(reTextAfter "main title", "title_1_text"),
   (reTextAfter "second title", "title_2_text"),
   (reTextAfter "button", "cta_button_text"),
   (reTextAfter "info", "info_text"),
   (reTextAfter "website", "template3_website_text")]

/-- Template 3 color rules (nodes.py lines 224-237), in source order; the
button color is stored under the key cta_color. -/
def t3ColorRules : List (RE × String) :=
  [(reColorAfter "main title", "title_1_color"),
   (reColorAfter "second title", "title_2_color"),
   (reColorAfter "button", "cta_color"),
   (reColorAfter "info", "info_color"),
   (reColorAfter "website", "template3_website_color")]

/-- Secondary-image loop for template 3 (nodes.py lines 198-205). -/
def applySecondaryImages (text : String) (params : Params) : Params :=
  (reFindAll reSecondaryImage text).foldl
    (fun ps caps =>
      match caps with
      | [num, url] =>
        if num = "1" then pset "secondary_image_url1" url ps
        else if num = "2" then pset "secondary_image_url2" url ps
        else if num = "3" then pset "secondary_image_url3" url ps
        else ps
      | _ => ps)
    params

/-- extract_template_params of nodes.py. -/
def extract_template_params (text : String) (template_version : Int) : Params :=
  let params := extractImageUrl text []
  if template_version = 1 then
    applyColorAdjectives text
      (applyColorMatches text (applyTextMatches text (extractPriceT1 text params)))
  else if template_version = 2 then
    applyColorRules t2ColorRules text (applyTextRules t2TextRules text params)
  else if template_version = 3 then
    applyColorRules t3ColorRules text
      (applyTextRules t3TextRules text (applySecondaryImages text params))
  else params

/-! ## Turn processing (nodes.py lines 242-345 and src/agents/__init__.py) -/

def lastHumanContent (msgs : List Msg) : Option String :=
  (msgs.filterMap (fun m => match m with | Msg.human c => some c | _ => none)).getLast?

/-- Regeneration keyword set of nodes.py lines 301-302. -/
def regenKeywords : List String :=
  ["regenerate", "generate", "create", "update", "change", "modify",
   "make", "yes", "proceed", "go ahead", "do it", "new"]

/-- URL-request keyword set of nodes.py line 303. -/
def urlKeywords : List String :=
  ["url", "link", "generated", "show me", "view", "preview", "see", "poster", "provide"]

def anyKeyword (ws : List String) (content : String) : Bool :=
  ws.any (fun kw => strContains (pyLower content) kw)

/-- Direct-price-modification check of nodes.py lines 270-283: for template
1, when the user-turn price pattern matches, flag it and (when the number
parses) overwrite property_price in the extracted parameters. -/
def priceModStep (content : String) (version : Int) (extracted : Params) : Bool × Params :=
  if version = 1 then
    match reSearch rePriceModUT content with
    | some (_, g :: _) =>
      (true,
        match pyIntOfFloatStr (stripCommas g) with
        | some n => pset "property_price" ("$" ++ commaGrouped n) extracted
        | none => extracted)
    | _ => (false, extracted)
  else (false, extracted)

/-- Parameter-change detection of nodes.py lines 292-298: some key of the
extraction is present in the previous parameters with a different value. -/
def paramsChanged (previous extracted : Params) : Bool :=
  extracted.any (fun kv =>
    match pget kv.1 previous with
    | some v => !(v == kv.2)
    | none => false)

/-- Force-regeneration block of nodes.py lines 313-319. -/
def forceFlagStep (cond : Bool) (s : AgentState) : AgentState :=
  if cond then { s with force_generation := true, generation_result := none } else s

/-- Status-update block of nodes.py lines 321-343. -/
def statusUpdateStep (is_regen price_mod : Bool) (s : AgentState) : AgentState :=
  let ps := s.template_params.getD []
  if s.template_version = 1 then
    if pmem "image_url" ps && pmem "property_price" ps then
      let s2 := { s with status := "READY_TO_GENERATE" }
      if is_regen || price_mod then { s2 with force_generation := true } else s2
    else s
  else if s.template_version = 2 then
    if pmem "image_url" ps then
      let s2 := { s with status := "READY_TO_GENERATE" }
      if is_regen then { s2 with force_generation := true } else s2
    else s
  else if s.template_version = 3 then
    if pmem "image_url" ps then
      let s2 := { s with status := "READY_TO_GENERATE" }
      if is_regen then { s2 with force_generation := true } else s2
    else s
  else
    if pmem "image_url" ps then { s with status := "READY_TO_GENERATE" } else s

/-- user_turn of nodes.py. -/
def user_turn (state : AgentState) : AgentState :=
  match lastHumanContent state.messages with
  | none => state
  | some content =>
    let pref := extract_template_preference content
    let s1 :=
      if !(pref == state.template_version) then
        { state with
          template_version := pref
          template_params := some []
          status := "COLLECTING_INFO" }
      else state
    let previous := s1.template_params.getD []
    let pm := priceModStep content s1.template_version
      (extract_template_params content s1.template_version)
    let price_modification := pm.1
    let extracted := pm.2
    let newParams :=
      match s1.template_params with
      | none => extracted
      | some ps => pupdate ps extracted
    let s2 := { s1 with template_params := some newParams }
    let params_changed := paramsChanged previous extracted
    let is_regen := anyKeyword regenKeywords content
    let is_url := anyKeyword urlKeywords content
    let s3 := forceFlagStep
      (((is_regen || is_url) && params_changed) ||
       (params_changed && (s2.status == "READY_TO_GENERATE" || s2.status == "TEMPLATE_GENERATED")) ||
       price_modification) s2
    statusUpdateStep is_regen price_modification s3

/-- Required-parameter sets of nodes.py lines 359-367. -/
def requiredParams (version : Int) : List String :=
  if version = 1 then ["image_url", "property_price"]
  else if version = 2 then ["image_url"]
  else if version = 3 then ["image_url"]
  else ["image_url"]

/-- check_requirements of nodes.py: a missing (None) parameter dict means
COLLECTING_INFO; the force flag short-circuits to READY_TO_GENERATE;
otherwise the required parameters are checked. -/
def check_requirements (state : AgentState) : AgentState :=
  match state.template_params with
  | none => { state with status := "COLLECTING_INFO" }
  | some tp =>
    if state.force_generation then { state with status := "READY_TO_GENERATE" }
    else
      let missing := (requiredParams state.template_version).filter (fun p => !(pmem p tp))
      if !missing.isEmpty then { state with status := "COLLECTING_INFO" }
      else { state with status := "READY_TO_GENERATE" }

def missingImageErrorMsg : Msg :=
  Msg.system "Error: Missing image URL. Please provide a URL to an image before generating the template."

def validationErrorMsg : Msg :=
  Msg.system "Error: An image URL is required. Please provide a URL to an image of the property."

/-- The missing-image branch of generate_template (nodes.py lines 506-518):
report, set COLLECTING_INFO, keep the collected parameters. -/
def genMissingImage (state : AgentState) : AgentState :=
  { state with
    messages := state.messages ++ [missingImageErrorMsg]
    status := "COLLECTING_INFO" }

/-- generate_template of nodes.py.  The external rendering call
(generate_real_estate_poster, which raises on failure) is modelled by the
oracle `render` from template version and parameters to a result or an
error string.  A `none` result models an exception escaping the function,
which in the source happens only when template_params is None (the .copy()
call raises before the try block). -/
def generate_template (render : Int → Params → Except String GenResult)
    (state : AgentState) : Option AgentState :=
  match state.template_params with
  | none => none
  | some tp =>
    match pget "image_url" tp with
    | none => some (genMissingImage state)
    | some u =>
      if u = "" then some (genMissingImage state)
      else
        let tp2 := pset "template_version" (toString state.template_version) tp
        match render state.template_version tp2 with
        | Except.ok result =>
          some { state with generation_result := some result, status := "TEMPLATE_GENERATED" }
        | Except.error e =>
          let m :=
            if strContains e "validation error" && strContains e "image_url" then
              validationErrorMsg
            else Msg.system ("Error generating template: " ++ e)
          some { state with messages := state.messages ++ [m], status := "COLLECTING_INFO" }

/-- ai_turn of nodes.py: the language-model call is external; its reply is
an oracle string appended to the history.  No other field is touched. -/
def ai_turn (reply : String) (state : AgentState) : AgentState :=
  { state with messages := state.messages ++ [Msg.ai reply] }

/-- The conditional routing of create_agent_graph (src/agents/__init__.py
lines 31-43). -/
def route_after_check (state : AgentState) : Bool :=
  (state.status == "READY_TO_GENERATE") || state.force_generation

/-- One full turn-processing cycle: the API layer appends the user message
(app.py line 167) and the compiled graph runs user_turn, then
check_requirements, then conditionally generate_template, then ai_turn
(src/agents/__init__.py lines 26-46). -/
def agent_turn (render : Int → Params → Except String GenResult)
    (reply user_msg : String) (state : AgentState) : Option AgentState :=
  let s1 := user_turn { state with messages := state.messages ++ [Msg.human user_msg] }
  let s2 := check_requirements s1
  if route_after_check s2 then (generate_template render s2).map (ai_turn reply)
  else some (ai_turn reply s2)

/-- The per-template customizable-element lists declared by get_templates
in src/app.py (lines 61-102): the repository's own schema of valid
parameter keys per template. -/
def customizable_elements (id : Int) : List String :=
  if id = 1 then
    ["image_url", "property_price", "modern_text", "home_text",
     "for_sale_text", "start_from_text", "cta_text", "website_text",
     "modern_color", "home_color", "for_sale_color", "start_from_color",
     "price_color", "cta_color", "website_color"]
  else if id = 2 then
    ["image_url", "house_agent_text", "tagline_text", "info_header_text",
     "contact_info_text", "text_1_color", "text_1_copy_color",
     "text_1_copy_copy_color", "text_1_copy_copy_copy_color"]
  else
    ["image_url", "secondary_image_url1", "secondary_image_url2", "secondary_image_url3",
     "title_1_text", "title_2_text", "cta_button_text", "info_text", "template3_website_text",
     "title_1_color", "title_2_color", "info_color", "template3_website_color"]

/-! ## Derived definitions used by the verification -/

def isHumanMsg : Msg → Bool
  | Msg.human _ => true
  | _ => false

/-- A rendering oracle that always succeeds (the mock-response path of
template_renderer.py lines 120-135). -/
def okRender : Int → Params → Except String GenResult :=
  fun _ _ => Except.ok { url := "https://example.com/poster-preview.jpg" }

/-- A rendering oracle that always fails with a generic error. -/
def errRender : Int → Params → Except String GenResult :=
  fun _ _ => Except.error "Render request failed. Response code: 500"

/-- A key is valid for a template when it is among the template's declared
customizable elements, extended for template 3 by the key cta_color that
the extractor uses for the button color. -/
def keyOKFor (v : Int) (k : String) : Bool :=
  (customizable_elements v).contains k || (v == 3 && k == "cta_color")

/-- A reachable state right after a successful generation for template 1,
with a fresh user message containing only the regeneration keyword. -/
def c4state : AgentState :=
  { messages := [Msg.human "generate"],
    status := "TEMPLATE_GENERATED",
    template_params := some [("image_url", "https://a.com/x.jpg"), ("property_price", "$100")],
    generation_result := some { url := "u" },
    template_version := 1,
    force_generation := false }

/-- A template-1 session state with parameter dict ps and one new user
message appended to an arbitrary prior history. -/
def t1state (msgs : List Msg) (msg st : String) (gr : Option GenResult) (fg : Bool)
    (ps : Params) : AgentState :=
  { messages := msgs ++ [Msg.human msg]
    status := st
    template_params := some ps
    generation_result := gr
    template_version := 1
    force_generation := fg }

/-- A state whose parameter dict is present but empty while the force flag
is set (the shape app.py lines 140-164 produce on a template switch before
any parameter was collected). -/
def c5state : AgentState :=
  { messages := [],
    status := "COLLECTING_INFO",
    template_params := some [],
    generation_result := none,
    template_version := 1,
    force_generation := true }

/-- A ready-to-generate template-1 state used to exercise the generator. -/
def c6state : AgentState :=
  { messages := [],
    status := "READY_TO_GENERATE",
    template_params := some [("image_url", "https://a.co/x.jpg")],
    generation_result := none,
    template_version := 1,
    force_generation := false }

/-- The text of the C3 scenario: an adjective shortcut and an explicit
color phrase target the cta color in one message. -/
def c3text : String := "yellow button, buy now color should be #123456"

/-- The session state after the first two turns of the C1 scenario: the
second turn issues a direct price modification, which sets the force flag. -/
def c1turn2 : Option AgentState :=
  (agent_turn okRender "" "www.a.com/x.jpg $9" get_initial_state).bind
    (agent_turn okRender "" "set price to 2,000")

/-- Two further full turn-processing cycles on top of c1turn2, neither of
which mentions parameters or regeneration. -/
def c1turn4 : Option AgentState :=
  (c1turn2.bind (agent_turn okRender "" "ok")).bind (agent_turn okRender "" "hm")

/-! ## Dictionary lemmas -/

theorem pget_pset (k k' v : String) (ps : Params) :
    pget k (pset k' v ps) = if k' = k then some v else pget k ps := by
  induction ps with
  | nil => simp [pset, pget]
  | cons kv rest ih =>
    by_cases h : kv.1 = k'
    · simp only [pset, if_pos h, pget]
      by_cases h2 : k' = k
      · simp [h2]
      · have : ¬ kv.1 = k := by rw [h]; exact h2
        simp [h2, this]
    · simp only [pset, if_neg h, pget, ih]
      by_cases h2 : kv.1 = k
      · have : ¬ k' = k := by intro e; exact h (by rw [h2, e])
        simp [h2, this]
      · simp [h2]

theorem pget_pset_ne (k k' v : String) (ps : Params) (h : ¬ k' = k) :
    pget k (pset k' v ps) = pget k ps := by
  rw [pget_pset, if_neg h]

theorem pget_pset_self (k v : String) (ps : Params) :
    pget k (pset k v ps) = some v := by
  rw [pget_pset, if_pos rfl]

theorem pget_condSet_ne (b : Bool) (k k' v : String) (ps : Params) (h : ¬ k' = k) :
    pget k (condSet b k' v ps) = pget k ps := by
  unfold condSet
  split
  · exact pget_pset_ne k k' v ps h
  · rfl

theorem pget_foldl_mem {α : Type} (k : String) (f : Params → α → Params) (l : List α)
    (h : ∀ ps a, a ∈ l → pget k (f ps a) = pget k ps) (ps : Params) :
    pget k (List.foldl f ps l) = pget k ps := by
  induction l generalizing ps with
  | nil => rfl
  | cons a rest ih =>
    rw [List.foldl_cons]
    rw [ih (fun ps b hb => h ps b (List.mem_cons_of_mem _ hb))]
    exact h ps a (List.mem_cons_self _ _)

/-! ## Which keys each extraction section can write -/

theorem textKeyT1_mem (ek k : String) (h : textKeyT1 ek = some k) :
    k ∈ ["modern_text", "home_text", "for_sale_text", "start_from_text",
      "cta_text", "website_text"] := by
  unfold textKeyT1 at h
  split_ifs at h <;> simp_all

theorem colorKeyT1_mem (ek k : String) (h : colorKeyT1 ek = some k) :
    k ∈ ["modern_color", "home_color", "for_sale_color", "start_from_color",
      "price_color", "cta_color", "website_color"] := by
  unfold colorKeyT1 at h
  split_ifs at h <;> simp_all

theorem pget_applyTextMatches (k : String)
    (hk : ¬ k ∈ ["modern_text", "home_text", "for_sale_text", "start_from_text",
      "cta_text", "website_text"])
    (text : String) (ps : Params) :
    pget k (applyTextMatches text ps) = pget k ps := by
  unfold applyTextMatches
  apply pget_foldl_mem
  intro ps caps _
  match caps with
  | [] => rfl
  | [_] => rfl
  | [element, content] =>
    simp only []
    cases h : textKeyT1 (pyLower (pyStrip element)) with
    | none => rfl
    | some key =>
      apply pget_pset_ne
      intro e
      exact hk (e ▸ textKeyT1_mem _ _ h)
  | _ :: _ :: _ :: _ => rfl

theorem pget_applyColorMatches (k : String)
    (hk : ¬ k ∈ ["modern_color", "home_color", "for_sale_color", "start_from_color",
      "price_color", "cta_color", "website_color"])
    (text : String) (ps : Params) :
    pget k (applyColorMatches text ps) = pget k ps := by
  unfold applyColorMatches
  apply pget_foldl_mem
  intro ps caps _
  match caps with
  | [] => rfl
  | [_] => rfl
  | [element, color] =>
    simp only []
    cases h : colorKeyT1 (pyLower (pyStrip element)) with
    | none => rfl
    | some key =>
      apply pget_pset_ne
      intro e
      exact hk (e ▸ colorKeyT1_mem _ _ h)
  | _ :: _ :: _ :: _ => rfl

theorem pget_applyColorAdjectives (k : String)
    (hk : ¬ k ∈ ["cta_color", "modern_color", "home_color", "for_sale_color",
      "price_color", "website_color"])
    (text : String) (ps : Params) :
    pget k (applyColorAdjectives text ps) = pget k ps := by
  simp only [List.mem_cons, List.not_mem_nil, or_false, not_or] at hk
  obtain ⟨h1, h2, h3, h4, h5, h6⟩ := hk
  unfold applyColorAdjectives
  apply pget_foldl_mem
  intro ps ec _
  unfold adjApply
  rw [pget_condSet_ne _ _ _ _ _ (fun e => h6 e.symm),
    pget_condSet_ne _ _ _ _ _ (fun e => h5 e.symm),
    pget_condSet_ne _ _ _ _ _ (fun e => h4 e.symm),
    pget_condSet_ne _ _ _ _ _ (fun e => h3 e.symm),
    pget_condSet_ne _ _ _ _ _ (fun e => h2 e.symm),
    pget_condSet_ne _ _ _ _ _ (fun e => h1 e.symm)]

theorem pget_applyTextRules (k : String) (rules : List (RE × String))
    (hk : ∀ r ∈ rules, ¬ r.2 = k) (text : String) (ps : Params) :
    pget k (applyTextRules rules text ps) = pget k ps := by
  unfold applyTextRules
  apply pget_foldl_mem
  intro ps rk hmem
  cases h : reSearch rk.1 text with
  | none => rfl
  | some m =>
    match m with
    | (_, []) => rfl
    | (_, g :: _) =>
      simp only []
      exact pget_pset_ne _ _ _ _ (hk rk hmem)

theorem pget_applyColorRules (k : String) (rules : List (RE × String))
    (hk : ∀ r ∈ rules, ¬ r.2 = k) (text : String) (ps : Params) :
    pget k (applyColorRules rules text ps) = pget k ps := by
  unfold applyColorRules
  apply pget_foldl_mem
  intro ps rk hmem
  cases h : reSearch rk.1 text with
  | none => rfl
  | some m =>
    match m with
    | (_, []) => rfl
    | (_, g :: _) =>
      simp only []
      exact pget_pset_ne _ _ _ _ (hk rk hmem)

theorem pget_applySecondaryImages (k : String)
    (hk : ¬ k ∈ ["secondary_image_url1", "secondary_image_url2", "secondary_image_url3"])
    (text : String) (ps : Params) :
    pget k (applySecondaryImages text ps) = pget k ps := by
  simp only [List.mem_cons, List.not_mem_nil, or_false, not_or] at hk
  obtain ⟨h1, h2, h3⟩ := hk
  unfold applySecondaryImages
  apply pget_foldl_mem
  intro ps caps _
  match caps with
  | [] => rfl
  | [_] => rfl
  | [num, url] =>
    simp only []
    split_ifs
    · exact pget_pset_ne _ _ _ _ (fun e => h1 e.symm)
    · exact pget_pset_ne _ _ _ _ (fun e => h2 e.symm)
    · exact pget_pset_ne _ _ _ _ (fun e => h3 e.symm)
    · rfl
  | _ :: _ :: _ :: _ => rfl

theorem pget_extractPriceT1 (k : String) (hk : ¬ k = "property_price")
    (text : String) (ps : Params) :
    pget k (extractPriceT1 text ps) = pget k ps := by
  have hne : ¬ "property_price" = k := fun e => hk e.symm
  unfold extractPriceT1
  cases reSearch rePriceMod text with
  | some m =>
    match m with
    | (_, []) =>
      cases reSearch reDollarAmount text with
      | some m2 =>
        match m2 with
        | (_, []) =>
          cases reSearch rePriceWord text with
          | some m3 =>
            match m3 with
            | (_, []) => rfl
            | (_, g :: _) => exact pget_pset_ne _ _ _ _ hne
          | none => rfl
        | (_, g :: _) => exact pget_pset_ne _ _ _ _ hne
      | none =>
        cases reSearch rePriceWord text with
        | some m3 =>
          match m3 with
          | (_, []) => rfl
          | (_, g :: _) => exact pget_pset_ne _ _ _ _ hne
        | none => rfl
    | (_, g :: _) => exact pget_pset_ne _ _ _ _ hne
  | none =>
    cases reSearch reDollarAmount text with
    | some m2 =>
      match m2 with
      | (_, []) =>
        cases reSearch rePriceWord text with
        | some m3 =>
          match m3 with
          | (_, []) => rfl
          | (_, g :: _) => exact pget_pset_ne _ _ _ _ hne
        | none => rfl
      | (_, g :: _) => exact pget_pset_ne _ _ _ _ hne
    | none =>
      cases reSearch rePriceWord text with
      | some m3 =>
        match m3 with
        | (_, []) => rfl
        | (_, g :: _) => exact pget_pset_ne _ _ _ _ hne
      | none => rfl

/-! ## Key-set invariant machinery -/

/-- All keys of a parameter dict satisfy a predicate. -/
def allKeysOK (P : String → Bool) (ps : Params) : Bool := ps.all (fun kv => P kv.1)

theorem allKeysOK_pset (P : String → Bool) (k v : String) (ps : Params)
    (hk : P k = true) (hps : allKeysOK P ps = true) :
    allKeysOK P (pset k v ps) = true := by
  induction ps with
  | nil => simp [pset, allKeysOK, hk]
  | cons kv rest ih =>
    simp only [allKeysOK, List.all_cons, Bool.and_eq_true] at hps
    by_cases h : kv.1 = k
    · simp [pset, h, allKeysOK, hk, hps.2]
    · have h2 := ih hps.2
      unfold allKeysOK at h2
      simp only [pset, if_neg h, allKeysOK, List.all_cons, Bool.and_eq_true]
      exact ⟨hps.1, h2⟩

theorem allKeysOK_condSet (P : String → Bool) (b : Bool) (k v : String) (ps : Params)
    (hk : P k = true) (hps : allKeysOK P ps = true) :
    allKeysOK P (condSet b k v ps) = true := by
  unfold condSet
  split
  · exact allKeysOK_pset P k v ps hk hps
  · exact hps

theorem allKeysOK_foldl_mem {α : Type} (P : String → Bool) (f : Params → α → Params)
    (l : List α)
    (h : ∀ ps a, a ∈ l → allKeysOK P ps = true → allKeysOK P (f ps a) = true)
    (ps : Params) (hps : allKeysOK P ps = true) :
    allKeysOK P (List.foldl f ps l) = true := by
  induction l generalizing ps with
  | nil => exact hps
  | cons a rest ih =>
    rw [List.foldl_cons]
    exact ih (fun ps b hb => h ps b (List.mem_cons_of_mem _ hb))
      (f ps a) (h ps a (List.mem_cons_self _ _) hps)

theorem allKeysOK_pupdate (P : String → Bool) (base upd : Params)
    (hb : allKeysOK P base = true) (hu : allKeysOK P upd = true) :
    allKeysOK P (pupdate base upd) = true := by
  unfold pupdate
  apply allKeysOK_foldl_mem
  · intro ps kv hmem hps
    apply allKeysOK_pset
    · simp only [allKeysOK, List.all_eq_true] at hu
      exact hu kv hmem
    · exact hps
  · exact hb

theorem allKeysOK_mono (P Q : String → Bool) (ps : Params)
    (h : ∀ k, P k = true → Q k = true) (hps : allKeysOK P ps = true) :
    allKeysOK Q ps = true := by
  simp only [allKeysOK, List.all_eq_true] at hps ⊢
  exact fun kv hkv => h kv.1 (hps kv hkv)

theorem allKeysOK_extractImageUrl (P : String → Bool) (text : String) (ps : Params)
    (hk : P "image_url" = true) (hps : allKeysOK P ps = true) :
    allKeysOK P (extractImageUrl text ps) = true := by
  unfold extractImageUrl
  have step1 : ∀ ps2 : Params, allKeysOK P ps2 = true →
      allKeysOK P (if pmem "image_url" ps2 then ps2 else
        match reSearch reWwwAny text with
        | some (g0, _) => pset "image_url" ("https://" ++ g0) ps2
        | none => ps2) = true := by
    intro ps2 h2
    split
    · exact h2
    · cases reSearch reWwwAny text with
      | some m =>
        match m with
        | (g0, _) => exact allKeysOK_pset P _ _ _ hk h2
      | none => exact h2
  cases reSearch reImgHttp text with
  | some m =>
    match m with
    | (g0, _) => exact step1 _ (allKeysOK_pset P _ _ _ hk hps)
  | none =>
    cases reSearch reImgWww text with
    | some m =>
      match m with
      | (g0, _) => exact step1 _ (allKeysOK_pset P _ _ _ hk hps)
    | none => exact step1 _ hps

theorem allKeysOK_extractPriceT1 (P : String → Bool) (text : String) (ps : Params)
    (hk : P "property_price" = true) (hps : allKeysOK P ps = true) :
    allKeysOK P (extractPriceT1 text ps) = true := by
  unfold extractPriceT1
  cases reSearch rePriceMod text with
  | some m =>
    match m with
    | (_, []) =>
      cases reSearch reDollarAmount text with
      | some m2 =>
        match m2 with
        | (_, []) =>
          cases reSearch rePriceWord text with
          | some m3 =>
            match m3 with
            | (_, []) => exact hps
            | (_, g :: _) => exact allKeysOK_pset P _ _ _ hk hps
          | none => exact hps
        | (_, g :: _) => exact allKeysOK_pset P _ _ _ hk hps
      | none =>
        cases reSearch rePriceWord text with
        | some m3 =>
          match m3 with
          | (_, []) => exact hps
          | (_, g :: _) => exact allKeysOK_pset P _ _ _ hk hps
        | none => exact hps
    | (_, g :: _) => exact allKeysOK_pset P _ _ _ hk hps
  | none =>
    cases reSearch reDollarAmount text with
    | some m2 =>
      match m2 with
      | (_, []) =>
        cases reSearch rePriceWord text with
        | some m3 =>
          match m3 with
          | (_, []) => exact hps
          | (_, g :: _) => exact allKeysOK_pset P _ _ _ hk hps
        | none => exact hps
      | (_, g :: _) => exact allKeysOK_pset P _ _ _ hk hps
    | none =>
      cases reSearch rePriceWord text with
      | some m3 =>
        match m3 with
        | (_, []) => exact hps
        | (_, g :: _) => exact allKeysOK_pset P _ _ _ hk hps
      | none => exact hps

theorem allKeysOK_applyTextMatches (P : String → Bool) (text : String) (ps : Params)
    (hk : ∀ k ∈ ["modern_text", "home_text", "for_sale_text", "start_from_text",
      "cta_text", "website_text"], P k = true)
    (hps : allKeysOK P ps = true) :
    allKeysOK P (applyTextMatches text ps) = true := by
  unfold applyTextMatches
  apply allKeysOK_foldl_mem _ _ _ _ _ hps
  intro ps caps _ h2
  match caps with
  | [] => exact h2
  | [_] => exact h2
  | [element, content] =>
    simp only []
    cases h : textKeyT1 (pyLower (pyStrip element)) with
    | none => exact h2
    | some key => exact allKeysOK_pset P _ _ _ (hk key (textKeyT1_mem _ _ h)) h2
  | _ :: _ :: _ :: _ => exact h2

theorem allKeysOK_applyColorMatches (P : String → Bool) (text : String) (ps : Params)
    (hk : ∀ k ∈ ["modern_color", "home_color", "for_sale_color", "start_from_color",
      "price_color", "cta_color", "website_color"], P k = true)
    (hps : allKeysOK P ps = true) :
    allKeysOK P (applyColorMatches text ps) = true := by
  unfold applyColorMatches
  apply allKeysOK_foldl_mem _ _ _ _ _ hps
  intro ps caps _ h2
  match caps with
  | [] => exact h2
  | [_] => exact h2
  | [element, color] =>
    simp only []
    cases h : colorKeyT1 (pyLower (pyStrip element)) with
    | none => exact h2
    | some key => exact allKeysOK_pset P _ _ _ (hk key (colorKeyT1_mem _ _ h)) h2
  | _ :: _ :: _ :: _ => exact h2

theorem allKeysOK_applyColorAdjectives (P : String → Bool) (text : String) (ps : Params)
    (hk : ∀ k ∈ ["cta_color", "modern_color", "home_color", "for_sale_color",
      "price_color", "website_color"], P k = true)
    (hps : allKeysOK P ps = true) :
    allKeysOK P (applyColorAdjectives text ps) = true := by
  unfold applyColorAdjectives
  apply allKeysOK_foldl_mem _ _ _ _ _ hps
  intro ps ec _ h2
  unfold adjApply
  apply allKeysOK_condSet _ _ _ _ _ (hk _ (by simp))
  apply allKeysOK_condSet _ _ _ _ _ (hk _ (by simp))
  apply allKeysOK_condSet _ _ _ _ _ (hk _ (by simp))
  apply allKeysOK_condSet _ _ _ _ _ (hk _ (by simp))
  apply allKeysOK_condSet _ _ _ _ _ (hk _ (by simp))
  apply allKeysOK_condSet _ _ _ _ _ (hk _ (by simp))
  exact h2

theorem allKeysOK_applyTextRules (P : String → Bool) (rules : List (RE × String))
    (text : String) (ps : Params)
    (hk : ∀ r ∈ rules, P r.2 = true) (hps : allKeysOK P ps = true) :
    allKeysOK P (applyTextRules rules text ps) = true := by
  unfold applyTextRules
  apply allKeysOK_foldl_mem _ _ _ _ _ hps
  intro ps rk hmem h2
  cases reSearch rk.1 text with
  | none => exact h2
  | some m =>
    match m with
    | (_, []) => exact h2
    | (_, g :: _) => exact allKeysOK_pset P _ _ _ (hk rk hmem) h2

theorem allKeysOK_applyColorRules (P : String → Bool) (rules : List (RE × String))
    (text : String) (ps : Params)
    (hk : ∀ r ∈ rules, P r.2 = true) (hps : allKeysOK P ps = true) :
    allKeysOK P (applyColorRules rules text ps) = true := by
  unfold applyColorRules
  apply allKeysOK_foldl_mem _ _ _ _ _ hps
  intro ps rk hmem h2
  cases reSearch rk.1 text with
  | none => exact h2
  | some m =>
    match m with
    | (_, []) => exact h2
    | (_, g :: _) => exact allKeysOK_pset P _ _ _ (hk rk hmem) h2

theorem allKeysOK_applySecondaryImages (P : String → Bool) (text : String) (ps : Params)
    (hk : ∀ k ∈ ["secondary_image_url1", "secondary_image_url2", "secondary_image_url3"],
      P k = true)
    (hps : allKeysOK P ps = true) :
    allKeysOK P (applySecondaryImages text ps) = true := by
  unfold applySecondaryImages
  apply allKeysOK_foldl_mem _ _ _ _ _ hps
  intro ps caps _ h2
  match caps with
  | [] => exact h2
  | [_] => exact h2
  | [num, url] =>
    simp only []
    split_ifs
    · exact allKeysOK_pset P _ _ _ (hk _ (by simp)) h2
    · exact allKeysOK_pset P _ _ _ (hk _ (by simp)) h2
    · exact allKeysOK_pset P _ _ _ (hk _ (by simp)) h2
    · exact h2
  | _ :: _ :: _ :: _ => exact h2

/-! ## Frame and requirement-checker lemmas -/

theorem lastHumanContent_none (msgs : List Msg)
    (h : ∀ m ∈ msgs, isHumanMsg m = false) :
    lastHumanContent msgs = none := by
  unfold lastHumanContent
  have hnil : msgs.filterMap
      (fun m => match m with | Msg.human c => some c | _ => none) = [] := by
    induction msgs with
    | nil => rfl
    | cons m rest ih =>
      have hm := h m (List.mem_cons_self _ _)
      have hrest := ih (fun x hx => h x (List.mem_cons_of_mem _ hx))
      cases m with
      | human c => simp [isHumanMsg] at hm
      | ai c => simpa [List.filterMap_cons] using hrest
      | system c => simpa [List.filterMap_cons] using hrest
  rw [hnil]
  rfl

/-- C10: when the chat history holds no user (human) message, user_turn
returns the state completely unchanged, every field included. -/
theorem c10_no_human_frame (state : AgentState)
    (h : ∀ m ∈ state.messages, isHumanMsg m = false) :
    user_turn state = state := by
  unfold user_turn
  rw [lastHumanContent_none state.messages h]

theorem c10_no_human_frame_witness :
    user_turn
      { messages := [Msg.system "welcome", Msg.ai "hello"],
        status := "WAITING_FOR_USER", template_params := none,
        generation_result := none, template_version := 1, force_generation := false } =
      { messages := [Msg.system "welcome", Msg.ai "hello"],
        status := "WAITING_FOR_USER", template_params := none,
        generation_result := none, template_version := 1, force_generation := false } :=
  c10_no_human_frame _ (by decide)

theorem missing_isEmpty_iff (v : Int) (tp : Params) :
    (((requiredParams v).filter (fun p => !(pmem p tp))).isEmpty = true ↔
      ∀ p ∈ requiredParams v, pmem p tp = true) := by
  rw [List.isEmpty_iff, List.filter_eq_nil_iff]
  constructor
  · intro h p hp
    have := h p hp
    simp_all
  · intro h p hp
    have := h p hp
    simp_all

/-- C5 counterexample: the requirement checker does not send an empty (but
present) parameter dict to COLLECTING_INFO; with the force flag set it
returns READY_TO_GENERATE, contradicting the claim's reading that an empty
mapping always yields COLLECTING_INFO. -/
theorem c5_counterexample :
    c5state.template_params = some [] ∧
    (check_requirements c5state).status = "READY_TO_GENERATE" ∧
    ¬ ((check_requirements c5state).status = "COLLECTING_INFO") := by
  refine ⟨rfl, rfl, by decide⟩

/-- C5 (amended): the requirement checker returns COLLECTING_INFO when the
parameter dict is absent (None); otherwise, if force_generation is set it
returns READY_TO_GENERATE without re-checking fields (even when the dict
is empty); otherwise it returns READY_TO_GENERATE exactly when every
required parameter of the active template is present, COLLECTING_INFO
otherwise; required parameters are image_url and property_price for
template 1, image_url for templates 2 and 3. -/
theorem c5_requirement_checker (s : AgentState) (tp : Params) :
    (s.template_params = none → (check_requirements s).status = "COLLECTING_INFO") ∧
    (s.template_params = some tp → s.force_generation = true →
      (check_requirements s).status = "READY_TO_GENERATE") ∧
    (s.template_params = some tp → s.force_generation = false →
      ((check_requirements s).status = "READY_TO_GENERATE" ↔
        ∀ p ∈ requiredParams s.template_version, pmem p tp = true)) ∧
    (s.template_params = some tp → s.force_generation = false →
      ¬ ((check_requirements s).status = "READY_TO_GENERATE") →
      (check_requirements s).status = "COLLECTING_INFO") ∧
    requiredParams 1 = ["image_url", "property_price"] ∧
    requiredParams 2 = ["image_url"] ∧
    requiredParams 3 = ["image_url"] := by
  refine ⟨?_, ?_, ?_, ?_, by decide, by decide, by decide⟩
  · intro h
    unfold check_requirements
    rw [h]
  · intro h hf
    unfold check_requirements
    rw [h]
    simp only [hf]
    rfl
  · intro h hf
    unfold check_requirements
    rw [h]
    simp only [hf, Bool.false_eq_true, if_false]
    rw [← missing_isEmpty_iff s.template_version tp]
    by_cases he : (((requiredParams s.template_version).filter (fun p => !(pmem p tp))).isEmpty) = true
    · simp [he]
    · simp [he]
  · intro h hf hr
    unfold check_requirements at hr ⊢
    rw [h] at hr ⊢
    simp only [hf, Bool.false_eq_true, if_false] at hr ⊢
    by_cases he : (((requiredParams s.template_version).filter (fun p => !(pmem p tp))).isEmpty) = true
    · simp [he] at hr
    · simp [he]

theorem c5_requirement_checker_witness :
    ((check_requirements
      { messages := [], status := "COLLECTING_INFO",
        template_params := some [("image_url", "https://a.co/x.jpg")],
        generation_result := none, template_version := 1,
        force_generation := false }).status = "READY_TO_GENERATE" ↔
      ∀ p ∈ requiredParams 1,
        pmem p [("image_url", "https://a.co/x.jpg")] = true) ∧
    ((check_requirements
      { messages := [], status := "COLLECTING_INFO",
        template_params := some [("image_url", "https://a.co/x.jpg"), ("property_price", "$100")],
        generation_result := none, template_version := 1,
        force_generation := false }).status = "READY_TO_GENERATE" ↔
      ∀ p ∈ requiredParams 1,
        pmem p [("image_url", "https://a.co/x.jpg"), ("property_price", "$100")] = true) :=
  ⟨(c5_requirement_checker _ _).2.2.1 rfl rfl, (c5_requirement_checker _ _).2.2.1 rfl rfl⟩

/-! ## Template Generator error handling -/

/-- C6: when a generation attempt does not succeed, either because
image_url is missing or empty (first conjunct: the result is then a fixed
state independent of the rendering oracle, so the external operation is
never invoked) or because the render call signals an error (second
conjunct), the generator appends an explanatory error message to the
history, sets status to COLLECTING_INFO, and leaves every other field -
in particular the collected parameters - unchanged; no exception escapes
(the result is always `some`). -/
theorem c6_generator_failure (render : Int → Params → Except String GenResult)
    (state : AgentState) (tp : Params) (h : state.template_params = some tp) :
    ((pget "image_url" tp = none ∨ pget "image_url" tp = some "") →
      generate_template render state = some (genMissingImage state)) ∧
    (∀ e, render state.template_version
        (pset "template_version" (toString state.template_version) tp) = Except.error e →
      ∃ m : Msg, generate_template render state =
        some { state with
               messages := state.messages ++ [m]
               status := "COLLECTING_INFO" }) := by
  constructor
  · intro himg
    unfold generate_template
    simp only [h]
    rcases himg with himg | himg
    · rw [himg]
    · rw [himg]
      simp
  · intro e herr
    unfold generate_template
    simp only [h]
    cases hi : pget "image_url" tp with
    | none =>
      refine ⟨missingImageErrorMsg, ?_⟩
      simp [genMissingImage, h]
    | some u =>
      by_cases hu : u = ""
      · subst hu
        refine ⟨missingImageErrorMsg, ?_⟩
        simp [genMissingImage, h]
      · simp only [if_neg hu]
        simp only [herr]
        refine ⟨if strContains e "validation error" && strContains e "image_url"
          then validationErrorMsg
          else Msg.system ("Error generating template: " ++ e), ?_⟩
        split <;> simp [h]

theorem c6_generator_failure_witness :
    (generate_template errRender
      { c6state with template_params := some [] } =
        some (genMissingImage { c6state with template_params := some [] })) ∧
    (∃ m : Msg, generate_template errRender c6state =
      some { c6state with
             messages := c6state.messages ++ [m]
             status := "COLLECTING_INFO" }) :=
  ⟨(c6_generator_failure errRender _ [] rfl).1 (Or.inl rfl),
   (c6_generator_failure errRender c6state _ rfl).2
     "Render request failed. Response code: 500" rfl⟩

/-! ## Template-choice extraction -/

theorem prefKeywordStep_range (text : String) :
    prefKeywordStep text = 1 ∨ prefKeywordStep text = 2 ∨ prefKeywordStep text = 3 := by
  simp only [prefKeywordStep]
  split_ifs <;> simp

theorem prefNumberStep_range (text : String) :
    prefNumberStep text = 1 ∨ prefNumberStep text = 2 ∨ prefNumberStep text = 3 := by
  cases h : reSearch reTemplateNum text with
  | none => simpa [prefNumberStep, h] using prefKeywordStep_range text
  | some m =>
    match m with
    | (g0, []) => simpa [prefNumberStep, h] using prefKeywordStep_range text
    | (g0, d :: rest) =>
      simp only [prefNumberStep, h]
      by_cases hr : 1 ≤ digitCapToInt d ∧ digitCapToInt d ≤ 3
      · rw [if_pos hr]
        omega
      · rw [if_neg hr]
        exact prefKeywordStep_range text

/-- C9: template-choice extraction is total over the set 1..3
(first conjunct); an explicit selection phrase with a digit 1..3 wins
(second conjunct); absent that, a bare template-number mention with a
digit 1..3 is returned (third conjunct); and with no selection phrase, no
number mention and no thematic keyword of any template, the default 1 is
returned (fourth conjunct). -/
theorem c9_template_choice (text : String) :
    (extract_template_preference text = 1 ∨ extract_template_preference text = 2 ∨
      extract_template_preference text = 3) ∧
    (∀ g0 d rest, reSearch reTemplateSelect text = some (g0, d :: rest) →
      1 ≤ digitCapToInt d → digitCapToInt d ≤ 3 →
      extract_template_preference text = digitCapToInt d) ∧
    (reSearch reTemplateSelect text = none →
      ∀ g0 d rest, reSearch reTemplateNum text = some (g0, d :: rest) →
      1 ≤ digitCapToInt d → digitCapToInt d ≤ 3 →
      extract_template_preference text = digitCapToInt d) ∧
    (reSearch reTemplateSelect text = none → reSearch reTemplateNum text = none →
      (["modern home", "for sale", "start from", "buy now"].any
        (fun w => strContains (pyLower text) w) = false) →
      (["house agent", "information", "contact", "technology", "template 2"].any
        (fun w => strContains (pyLower text) w) = false) →
      (["best home", "multiple photos", "i want button", "three images", "template 3"].any
        (fun w => strContains (pyLower text) w) = false) →
      extract_template_preference text = 1) := by
  refine ⟨?_, ?_, ?_, ?_⟩
  · cases h : reSearch reTemplateSelect text with
    | none => simpa [extract_template_preference, h] using prefNumberStep_range text
    | some m =>
      match m with
      | (g0, []) => simpa [extract_template_preference, h] using prefNumberStep_range text
      | (g0, d :: rest) =>
        simp only [extract_template_preference, h]
        by_cases hr : 1 ≤ digitCapToInt d ∧ digitCapToInt d ≤ 3
        · rw [if_pos hr]
          omega
        · rw [if_neg hr]
          exact prefNumberStep_range text
  · intro g0 d rest h h1 h3
    simp only [extract_template_preference, h]
    rw [if_pos ⟨h1, h3⟩]
  · intro hsel g0 d rest h h1 h3
    simp only [extract_template_preference, hsel, prefNumberStep, h]
    rw [if_pos ⟨h1, h3⟩]
  · intro hsel hnum hk1 hk2 hk3
    simp [extract_template_preference, hsel, prefNumberStep, hnum, prefKeywordStep,
      hk1, hk2, hk3]

theorem c9_template_choice_witness :
    extract_template_preference "use template 2" = 2 ∧
    extract_template_preference "I like template 3" = 3 ∧
    extract_template_preference "hello there" = 1 := by
  refine ⟨?_, ?_, ?_⟩
  · have h := (c9_template_choice "use template 2").2.1 "use template 2" "2" []
      (by decide) (by decide) (by decide)
    have h2 : digitCapToInt "2" = 2 := by decide
    rw [h2] at h
    exact h
  · have h := (c9_template_choice "I like template 3").2.2.1 (by decide)
      "template 3" "3" [] (by decide) (by decide) (by decide)
    have h2 : digitCapToInt "3" = 3 := by decide
    rw [h2] at h
    exact h
  · exact (c9_template_choice "hello there").2.2.2 (by decide) (by decide)
      (by decide) (by decide) (by decide)

/-! ## Image-URL extraction -/

theorem pget_image_extract (text : String) (v : Int) :
    pget "image_url" (extract_template_params text v) =
    pget "image_url" (extractImageUrl text []) := by
  unfold extract_template_params
  split_ifs
  · rw [pget_applyColorAdjectives _ (by decide), pget_applyColorMatches _ (by decide),
      pget_applyTextMatches _ (by decide), pget_extractPriceT1 _ (by decide)]
  · rw [pget_applyColorRules _ t2ColorRules (by decide), pget_applyTextRules _ t2TextRules (by decide)]
  · rw [pget_applyColorRules _ t3ColorRules (by decide), pget_applyTextRules _ t3TextRules (by decide),
      pget_applySecondaryImages _ (by decide)]
  · rfl

/-- C8: image-URL extraction applies the three rules in fixed order with
the later rules never attempted once an earlier one matched: an absolute
http(s) image URL is stored as matched (first conjunct); otherwise a
www-prefixed image URL is stored with https:// prepended (second
conjunct); otherwise any www-prefixed URL is stored with https://
prepended (third conjunct); the spec's example is reproduced (fourth
conjunct). -/
theorem c8_image_url_rules (text : String) (v : Int) :
    (∀ g0 caps, reSearch reImgHttp text = some (g0, caps) →
      pget "image_url" (extract_template_params text v) = some g0) ∧
    (reSearch reImgHttp text = none → ∀ g0 caps, reSearch reImgWww text = some (g0, caps) →
      pget "image_url" (extract_template_params text v) = some ("https://" ++ g0)) ∧
    (reSearch reImgHttp text = none → reSearch reImgWww text = none →
      ∀ g0 caps, reSearch reWwwAny text = some (g0, caps) →
      pget "image_url" (extract_template_params text v) = some ("https://" ++ g0)) ∧
    pget "image_url" (extract_template_params "check www.site.com/pic.jpg" 1) =
      some "https://www.site.com/pic.jpg" := by
  refine ⟨?_, ?_, ?_, by decide⟩
  · intro g0 caps h
    rw [pget_image_extract]
    simp [extractImageUrl, h, pmem, pget_pset_self]
  · intro hnone g0 caps h
    rw [pget_image_extract]
    simp [extractImageUrl, hnone, h, pmem, pget_pset_self]
  · intro hnone1 hnone2 g0 caps h
    rw [pget_image_extract]
    simp [extractImageUrl, hnone1, hnone2, h, pmem, pget, pget_pset_self]

theorem c8_image_url_rules_witness :
    pget "image_url" (extract_template_params "grab http://h.io/a.png now" 2) =
      some "http://h.io/a.png" ∧
    pget "image_url" (extract_template_params "see www.x.com/page now" 1) =
      some "https://www.x.com" := by
  constructor
  · exact (c8_image_url_rules "grab http://h.io/a.png now" 2).1
      "http://h.io/a.png" ["png"] (by decide)
  · exact (c8_image_url_rules "see www.x.com/page now" 1).2.2.1 (by decide) (by decide)
      "www.x.com" [] (by decide)

/-! ## Price extraction (template 1) -/

theorem pget_price_extract1 (text : String) :
    pget "property_price" (extract_template_params text 1) =
    pget "property_price" (extractPriceT1 text (extractImageUrl text [])) := by
  unfold extract_template_params
  rw [if_pos rfl]
  rw [pget_applyColorAdjectives _ (by decide), pget_applyColorMatches _ (by decide),
    pget_applyTextMatches _ (by decide)]

/-- C7: for template 1, the explicit modification phrase takes precedence
over any bare dollar amount in the same text (first conjunct holds
whatever the other patterns match); a bare dollar amount is used when no
modification phrase matches (second conjunct), and the price-word phrase
when neither matches (third conjunct); the matched number is
comma-stripped, parsed and reformatted with separators (fourth conjunct),
and a parse failure falls back to the raw matched digits behind a dollar
sign, so a matched value is never dropped (fifth conjunct); the spec's
two examples are reproduced (sixth and seventh conjuncts). -/
theorem c7_price_extraction (text : String) :
    (∀ g0 g rest, reSearch rePriceMod text = some (g0, g :: rest) →
      pget "property_price" (extract_template_params text 1) = some (formatPriceGroup g)) ∧
    (reSearch rePriceMod text = none →
      ∀ g0 g rest, reSearch reDollarAmount text = some (g0, g :: rest) →
      pget "property_price" (extract_template_params text 1) = some (formatPriceGroup g)) ∧
    (reSearch rePriceMod text = none → reSearch reDollarAmount text = none →
      ∀ g0 g rest, reSearch rePriceWord text = some (g0, g :: rest) →
      pget "property_price" (extract_template_params text 1) = some (formatPriceGroup g)) ∧
    (∀ g n, pyIntOfFloatStr (stripCommas g) = some n →
      formatPriceGroup g = "$" ++ commaGrouped n) ∧
    (∀ g, pyIntOfFloatStr (stripCommas g) = none →
      formatPriceGroup g = "$" ++ g) ∧
    pget "property_price" (extract_template_params "$450,000" 1) = some "$450,000" ∧
    pget "property_price" (extract_template_params "modify the price to 500000" 1) =
      some "$500,000" := by
  refine ⟨?_, ?_, ?_, ?_, ?_, by decide, by decide⟩
  · intro g0 g rest h
    rw [pget_price_extract1]
    unfold extractPriceT1
    simp only [h]
    exact pget_pset_self _ _ _
  · intro hnone g0 g rest h
    rw [pget_price_extract1]
    unfold extractPriceT1
    simp only [hnone, h]
    exact pget_pset_self _ _ _
  · intro hnone1 hnone2 g0 g rest h
    rw [pget_price_extract1]
    unfold extractPriceT1
    simp only [hnone1, hnone2, h]
    exact pget_pset_self _ _ _
  · intro g n h
    unfold formatPriceGroup
    simp only [h]
  · intro g h
    unfold formatPriceGroup
    simp only [h]

theorem c7_price_extraction_witness :
    pget "property_price"
        (extract_template_params "price was $9 but modify the price to 2,500.75" 1) =
      some (formatPriceGroup "2,500.75") ∧
    formatPriceGroup "2,500.75" = "$2,500" ∧
    formatPriceGroup "1.2.3" = "$1.2.3" := by
  refine ⟨?_, by decide, ?_⟩
  · exact (c7_price_extraction "price was $9 but modify the price to 2,500.75").1
      "modify the price to 2,500.75" "2,500.75" [] (by decide)
  · exact (c7_price_extraction "x").2.2.2.2.1 "1.2.3" (by decide)

/-! ## Color precedence (template 1) -/

theorem pget_cta_adjApply (lower : String) (ps : Params) (ec : String × String) :
    pget "cta_color" (adjApply lower ps ec) =
    if adjTriggersCta lower ec.1 then some ec.2 else pget "cta_color" ps := by
  unfold adjApply
  rw [pget_condSet_ne _ _ _ _ _ (by decide), pget_condSet_ne _ _ _ _ _ (by decide),
    pget_condSet_ne _ _ _ _ _ (by decide), pget_condSet_ne _ _ _ _ _ (by decide),
    pget_condSet_ne _ _ _ _ _ (by decide)]
  unfold condSet
  split
  · rw [pget_pset_self]
  · rfl

theorem colorAdjectives_name_det : ∀ p ∈ colorAdjectives, ∀ q ∈ colorAdjectives,
    p.1 = q.1 → p.2 = q.2 := by decide

theorem fold_adj_cta (lower adj hex : String) (l : List (String × String))
    (htrig : adjTriggersCta lower adj = true)
    (hothers : ∀ p ∈ l, ¬ p.1 = adj → adjTriggersCta lower p.1 = false)
    (huniq : ∀ p ∈ l, p.1 = adj → p.2 = hex)
    (ps : Params) (hstart : (adj, hex) ∈ l ∨ pget "cta_color" ps = some hex) :
    pget "cta_color" (List.foldl (adjApply lower) ps l) = some hex := by
  induction l generalizing ps with
  | nil =>
    rcases hstart with h | h
    · cases h
    · exact h
  | cons p rest ih =>
    rw [List.foldl_cons]
    apply ih (fun q hq => hothers q (List.mem_cons_of_mem _ hq))
      (fun q hq => huniq q (List.mem_cons_of_mem _ hq))
    rcases hstart with hm | hps
    · rcases List.mem_cons.mp hm with heq | hrest
      · right
        rw [pget_cta_adjApply, ← heq]
        simp only [htrig, if_true]
      · by_cases hp : p.1 = adj
        · right
          rw [pget_cta_adjApply, hp]
          simp only [htrig, if_true, huniq p (List.mem_cons_self _ _) hp]
        · exact Or.inl hrest
    · right
      rw [pget_cta_adjApply]
      by_cases hp : p.1 = adj
      · rw [hp]
        simp only [htrig, if_true, huniq p (List.mem_cons_self _ _) hp]
      · rw [hothers p (List.mem_cons_self _ _) hp]
        simpa using hps

/-- C3 counterexample: in the text c3text both the explicit phrase
(matching element buy-now with value hash-123456, first two conjuncts)
and the adjective shortcut target cta_color, yet the extracted value is
the adjective's fixed hex, not the explicit rule's value: the adjective
loop runs after the explicit rule in the source and overwrites it,
contradicting the claim that the explicit rule wins. -/
theorem c3_counterexample :
    reFindAll reColorShould c3text = [[" buy now", "#123456"]] ∧
    colorKeyT1 (pyLower (pyStrip " buy now")) = some "cta_color" ∧
    pget "cta_color" (extract_template_params c3text 1) = some "#FFD700" ∧
    ¬ ((some "#FFD700" : Option String) = some "#123456") := by
  exact ⟨by decide, by decide, by decide, by decide⟩

/-- C3 (amended): the precedence is the reverse of the claim: the
color-adjective shortcut is evaluated after the explicit color-should-be
rule in the same pass and unconditionally overwrites it, so whenever an
adjective triggers the cta shortcut (and no other adjective does), the
extracted cta_color equals the adjective's fixed hex value, whatever any
explicit rule in the same text said. -/
theorem c3_adjective_wins (text adj hex : String)
    (hmem : (adj, hex) ∈ colorAdjectives)
    (htrig : adjTriggersCta (pyLower text) adj = true)
    (hothers : ∀ p ∈ colorAdjectives, ¬ p.1 = adj →
      adjTriggersCta (pyLower text) p.1 = false) :
    pget "cta_color" (extract_template_params text 1) = some hex := by
  unfold extract_template_params
  rw [if_pos rfl]
  unfold applyColorAdjectives
  exact fold_adj_cta (pyLower text) adj hex colorAdjectives htrig hothers
    (fun p hp hpe => colorAdjectives_name_det p hp (adj, hex) hmem (by rw [hpe]))
    _ (Or.inl hmem)

theorem c3_adjective_wins_witness :
    pget "cta_color" (extract_template_params "make it a red button" 1) = some "#FF0000" :=
  c3_adjective_wins "make it a red button" "red" "#FF0000" (by decide) (by decide) (by decide)

/-! ## Parameter-key schema -/

/-- C2 counterexample: for template 3 the extractor maps the button-color
phrase to the key cta_color (first conjunct), which is not among template
3's declared customizable elements (second conjunct), so the extraction
result is not contained in template 3's schema (third conjunct). -/
theorem c2_counterexample :
    extract_template_params "button color #FF0000" 3 = [("cta_color", "#FF0000")] ∧
    ¬ ("cta_color" ∈ customizable_elements 3) ∧
    allKeysOK (fun k => (customizable_elements 3).contains k)
      (extract_template_params "button color #FF0000" 3) = false := by
  exact ⟨by decide, by decide, by decide⟩

/-- C2 (amended): for each template version, extraction returns only keys
of that template's declared schema, except that for template 3 the button
color is stored under the template-1 key cta_color; merging such an
extraction into a parameter dict that satisfies the (extended) schema
preserves it. -/
theorem c2_extraction_schema (text : String) (v : Int) (base : Params)
    (hv : v = 1 ∨ v = 2 ∨ v = 3) :
    allKeysOK (keyOKFor v) (extract_template_params text v) = true ∧
    (allKeysOK (keyOKFor v) base = true →
      allKeysOK (keyOKFor v) (pupdate base (extract_template_params text v)) = true) := by
  have h1 : allKeysOK (keyOKFor v) (extract_template_params text v) = true := by
    rcases hv with rfl | rfl | rfl
    · unfold extract_template_params
      rw [if_pos rfl]
      apply allKeysOK_applyColorAdjectives _ _ _ (by decide)
      apply allKeysOK_applyColorMatches _ _ _ (by decide)
      apply allKeysOK_applyTextMatches _ _ _ (by decide)
      apply allKeysOK_extractPriceT1 _ _ _ (by decide)
      exact allKeysOK_extractImageUrl _ _ _ (by decide) rfl
    · unfold extract_template_params
      rw [if_neg (by decide), if_pos rfl]
      apply allKeysOK_applyColorRules _ _ _ _ (by decide)
      apply allKeysOK_applyTextRules _ _ _ _ (by decide)
      exact allKeysOK_extractImageUrl _ _ _ (by decide) rfl
    · unfold extract_template_params
      rw [if_neg (by decide), if_neg (by decide), if_pos rfl]
      apply allKeysOK_applyColorRules _ _ _ _ (by decide)
      apply allKeysOK_applyTextRules _ _ _ _ (by decide)
      apply allKeysOK_applySecondaryImages _ _ _ (by decide)
      exact allKeysOK_extractImageUrl _ _ _ (by decide) rfl
  exact ⟨h1, fun hb => allKeysOK_pupdate _ _ _ hb h1⟩

theorem c2_extraction_schema_witness :
    allKeysOK (keyOKFor 3) (extract_template_params "button color #FF0000" 3) = true ∧
    (allKeysOK (keyOKFor 3) [("image_url", "u")] = true →
      allKeysOK (keyOKFor 3)
        (pupdate [("image_url", "u")] (extract_template_params "button color #FF0000" 3)) = true) :=
  c2_extraction_schema "button color #FF0000" 3 [("image_url", "u")] (Or.inr (Or.inr rfl))

/-! ## Turn-processor force-flag behavior -/

theorem lastHumanContent_append (msgs : List Msg) (c : String) :
    lastHumanContent (msgs ++ [Msg.human c]) = some c := by
  unfold lastHumanContent
  rw [List.filterMap_append]
  simp [List.getLast?_concat]

/-- C4 counterexample: in the reachable state c4state (template 1,
TEMPLATE_GENERATED, both required parameters present), the message
consists of the bare keyword generate: no parameter is extracted (third
conjunct), no parameter changes, and no price-modification phrase matches
(fourth conjunct), so the claim's condition for setting the flag is false;
yet user_turn sets force_generation (first conjunct) and does not clear
generation_result (second conjunct). -/
theorem c4_counterexample :
    (user_turn c4state).force_generation = true ∧
    (user_turn c4state).generation_result = some { url := "u" } ∧
    extract_template_params "generate" 1 = [] ∧
    reSearch rePriceModUT "generate" = none := by
  exact ⟨by decide, by decide, by decide, by decide⟩

/-- C4 (amended): besides the claimed cases, the status-update block sets
force_regeneration - without clearing generation_result - whenever the
active template's required parameters are all present and the message
contains a regeneration keyword, even with no parameter change and no
price modification (first pair of conjuncts, for an arbitrary template-1
state); the re-generation guard of the claim does hold: a message with no
extractable parameters, no regeneration keyword and no price modification
leaves both the flag and the generation result unchanged (second pair);
and in the claimed price-modification case the flag is set and
generation_result is cleared (third pair, on a concrete generated state). -/
theorem c4_force_flag (msgs : List Msg) (st : String) (gr : Option GenResult) (fg : Bool)
    (ps : Params) (h1 : pmem "image_url" ps = true) (h2 : pmem "property_price" ps = true) :
    ((user_turn (t1state msgs "generate" st gr fg ps)).force_generation = true ∧
     (user_turn (t1state msgs "generate" st gr fg ps)).generation_result = gr) ∧
    ((user_turn (t1state msgs "hello" st gr fg ps)).force_generation = fg ∧
     (user_turn (t1state msgs "hello" st gr fg ps)).generation_result = gr) ∧
    ((user_turn (t1state [] "change the price to 200000" "TEMPLATE_GENERATED"
        (some { url := "u" }) false
        [("image_url", "https://a.com/x.jpg"), ("property_price", "$100")])).force_generation = true ∧
     (user_turn (t1state [] "change the price to 200000" "TEMPLATE_GENERATED"
        (some { url := "u" }) false
        [("image_url", "https://a.com/x.jpg"), ("property_price", "$100")])).generation_result = none) := by
  refine ⟨⟨?_, ?_⟩, ⟨?_, ?_⟩, by decide, by decide⟩
  all_goals
    simp [user_turn, t1state, lastHumanContent_append, paramsChanged, pupdate, forceFlagStep,
      statusUpdateStep, h1, h2,
      show extract_template_preference "generate" = 1 from by decide,
      show extract_template_preference "hello" = 1 from by decide,
      show priceModStep "generate" 1 (extract_template_params "generate" 1) = (false, []) from by decide,
      show priceModStep "hello" 1 (extract_template_params "hello" 1) = (false, []) from by decide,
      show anyKeyword regenKeywords "generate" = true from by decide,
      show anyKeyword urlKeywords "generate" = false from by decide,
      show anyKeyword regenKeywords "hello" = false from by decide,
      show anyKeyword urlKeywords "hello" = false from by decide]

theorem c4_force_flag_witness :
    (user_turn (t1state [] "generate" "TEMPLATE_GENERATED" (some { url := "u" }) false
      [("image_url", "https://a.com/x.jpg"), ("property_price", "$100")])).force_generation = true ∧
    (user_turn (t1state [] "hello" "TEMPLATE_GENERATED" (some { url := "u" }) false
      [("image_url", "https://a.com/x.jpg"), ("property_price", "$100")])).force_generation = false :=
  ⟨((c4_force_flag [] "TEMPLATE_GENERATED" (some { url := "u" }) false
      [("image_url", "https://a.com/x.jpg"), ("property_price", "$100")]
      (by decide) (by decide)).1).1,
   ((c4_force_flag [] "TEMPLATE_GENERATED" (some { url := "u" }) false
      [("image_url", "https://a.com/x.jpg"), ("property_price", "$100")]
      (by decide) (by decide)).2.1).1⟩

/-! ## The force flag across full turns -/

theorem forceFlagStep_force_mono (c : Bool) (s : AgentState)
    (h : s.force_generation = true) :
    (forceFlagStep c s).force_generation = true := by
  unfold forceFlagStep
  split <;> simp [h]

theorem statusUpdateStep_force_mono (a b : Bool) (s : AgentState)
    (h : s.force_generation = true) :
    (statusUpdateStep a b s).force_generation = true := by
  simp only [statusUpdateStep]
  split_ifs <;> simp_all

theorem user_turn_force_mono (s : AgentState) (h : s.force_generation = true) :
    (user_turn s).force_generation = true := by
  unfold user_turn
  cases hc : lastHumanContent s.messages with
  | none => exact h
  | some c =>
    simp only []
    apply statusUpdateStep_force_mono
    apply forceFlagStep_force_mono
    show AgentState.force_generation _ = true
    split <;> simp [h]

theorem check_requirements_force (s : AgentState) :
    (check_requirements s).force_generation = s.force_generation := by
  cases hp : s.template_params with
  | none => simp [check_requirements, hp]
  | some tp =>
    simp only [check_requirements, hp]
    split_ifs <;> rfl

theorem generate_template_force (render : Int → Params → Except String GenResult)
    (s s2 : AgentState) (h : generate_template render s = some s2) :
    s2.force_generation = s.force_generation := by
  unfold generate_template at h
  cases hp : s.template_params with
  | none => rw [hp] at h; cases h
  | some tp =>
    simp only [hp] at h
    cases hi : pget "image_url" tp with
    | none =>
      simp only [hi] at h
      cases h
      rfl
    | some u =>
      simp only [hi] at h
      by_cases hu : u = ""
      · rw [if_pos hu] at h
        cases h
        rfl
      · rw [if_neg hu] at h
        cases hr : render s.template_version (pset "template_version" (toString s.template_version) tp) with
        | ok result => simp only [hr] at h; cases h; rfl
        | error e => simp only [hr] at h; cases h; rfl

/-- C1 (amended): the force flag is never consumed: no node of the turn
pipeline ever resets force_generation to false, so once it is set it is
still set after any further full turn-processing cycle (user message,
turn processing, requirement check, conditional generation, reply). -/
theorem c1_force_flag_sticky (render : Int → Params → Except String GenResult)
    (reply msg : String) (s s2 : AgentState)
    (h : s.force_generation = true) (hrun : agent_turn render reply msg s = some s2) :
    s2.force_generation = true := by
  unfold agent_turn at hrun
  simp only [] at hrun
  have h1 : (user_turn { s with messages := s.messages ++ [Msg.human msg] }).force_generation = true :=
    user_turn_force_mono _ h
  have h2 : (check_requirements (user_turn { s with messages := s.messages ++ [Msg.human msg] })).force_generation = true := by
    rw [check_requirements_force]
    exact h1
  split at hrun
  · rcases Option.map_eq_some'.mp hrun with ⟨sg, hg, hai⟩
    have := generate_template_force render _ _ hg
    rw [← hai]
    show sg.force_generation = true
    rw [this]
    exact h2
  · rw [← Option.some_inj.mp hrun]
    show (check_requirements _).force_generation = true
    exact h2

/-- C1 counterexample: a concrete run of four full turn-processing cycles
from the initial state; the second turn issues a price modification and
sets force_generation, the generation branch then runs successfully, and
after the two further full cycles (which change nothing) the flag is
still set: it is never consumed. -/
theorem c1_counterexample :
    (c1turn2.map (fun s => s.force_generation)) = some true ∧
    (c1turn2.map (fun s => s.status)) = some "TEMPLATE_GENERATED" ∧
    (c1turn4.map (fun s => s.force_generation)) = some true := by
  exact ⟨by decide, by decide, by decide⟩

theorem c1_force_flag_sticky_witness :
    ((agent_turn okRender "" "hm" c5state).map (fun s => s.force_generation)) = some true := by
  cases hrun : agent_turn okRender "" "hm" c5state with
  | none => exact absurd hrun (by decide)
  | some s2 =>
    have := c1_force_flag_sticky okRender "" "hm" c5state s2 rfl hrun
    simp [this]
